import Mathlib

/-!
Navigation table `namespaceo2_1_1cpv`.

A shallow embedding of the generated navigation table
`d8/d32/namespaceo2_1_1cpv.js` and of the structural properties stated about it.
The JavaScript array literal is embedded as a value of `JSVal`; every property
is stated over that value.
-/

namespace NavTable

/-- JavaScript values that may occur in a navigation table literal: `null`,
a string literal, or an array literal of such values. -/
inductive JSVal where
  | null : JSVal
  | str (s : String) : JSVal
  | arr (items : List JSVal) : JSVal

/-- The value bound by `var namespaceo2_1_1cpv = [ ... ];`, one line per source line 3 to 36. -/
def namespaceo2_1_1cpv : JSVal :=
  .arr [
    .arr [ .str "reco_workflow", .str "d3/d93/namespaceo2_1_1cpv_1_1reco__workflow.html", .str "d3/d93/namespaceo2_1_1cpv_1_1reco__workflow" ],
    .arr [ .str "AddressCharge", .str "d0/dde/uniono2_1_1cpv_1_1AddressCharge.html", .str "d0/dde/uniono2_1_1cpv_1_1AddressCharge" ],
    .arr [ .str "BadChannelMap", .str "d3/dd0/classo2_1_1cpv_1_1BadChannelMap.html", .str "d3/dd0/classo2_1_1cpv_1_1BadChannelMap" ],
    .arr [ .str "CalibParams", .str "d3/df4/classo2_1_1cpv_1_1CalibParams.html", .str "d3/df4/classo2_1_1cpv_1_1CalibParams" ],
    .arr [ .str "Cluster", .str "d9/dd4/classo2_1_1cpv_1_1Cluster.html", .str "d9/dd4/classo2_1_1cpv_1_1Cluster" ],
    .arr [ .str "Clusterer", .str "d4/d03/classo2_1_1cpv_1_1Clusterer.html", .str "d4/d03/classo2_1_1cpv_1_1Clusterer" ],
    .arr [ .str "CPVBlockHeader", .str "d0/ddd/structo2_1_1cpv_1_1CPVBlockHeader.html", .str "d0/ddd/structo2_1_1cpv_1_1CPVBlockHeader" ],
    .arr [ .str "CPVSimParams", .str "df/ddb/structo2_1_1cpv_1_1CPVSimParams.html", .str "df/ddb/structo2_1_1cpv_1_1CPVSimParams" ],
    .arr [ .str "CTF", .str "d2/d61/structo2_1_1cpv_1_1CTF.html", .str "d2/d61/structo2_1_1cpv_1_1CTF" ],
    .arr [ .str "CTFCoder", .str "da/d3c/classo2_1_1cpv_1_1CTFCoder.html", .str "da/d3c/classo2_1_1cpv_1_1CTFCoder" ],
    .arr [ .str "CTFHeader", .str "d0/d60/structo2_1_1cpv_1_1CTFHeader.html", .str "d0/d60/structo2_1_1cpv_1_1CTFHeader" ],
    .arr [ .str "CTFHelper", .str "db/d85/classo2_1_1cpv_1_1CTFHelper.html", .str "db/d85/classo2_1_1cpv_1_1CTFHelper" ],
    .arr [ .str "Detector", .str "d4/d0b/classo2_1_1cpv_1_1Detector.html", .str "d4/d0b/classo2_1_1cpv_1_1Detector" ],
    .arr [ .str "Digit", .str "d2/dab/classo2_1_1cpv_1_1Digit.html", .str "d2/dab/classo2_1_1cpv_1_1Digit" ],
    .arr [ .str "Digitizer", .str "d2/d76/classo2_1_1cpv_1_1Digitizer.html", .str "d2/d76/classo2_1_1cpv_1_1Digitizer" ],
    .arr [ .str "DigitizerSpec", .str "d2/d9d/classo2_1_1cpv_1_1DigitizerSpec.html", .str "d2/d9d/classo2_1_1cpv_1_1DigitizerSpec" ],
    .arr [ .str "EntropyDecoderSpec", .str "d0/d1e/classo2_1_1cpv_1_1EntropyDecoderSpec.html", .str "d0/d1e/classo2_1_1cpv_1_1EntropyDecoderSpec" ],
    .arr [ .str "EntropyEncoderSpec", .str "d0/de1/classo2_1_1cpv_1_1EntropyEncoderSpec.html", .str "d0/de1/classo2_1_1cpv_1_1EntropyEncoderSpec" ],
    .arr [ .str "EoEWord", .str "d3/d0d/uniono2_1_1cpv_1_1EoEWord.html", .str "d3/d0d/uniono2_1_1cpv_1_1EoEWord" ],
    .arr [ .str "FullCluster", .str "df/db5/classo2_1_1cpv_1_1FullCluster.html", .str "df/db5/classo2_1_1cpv_1_1FullCluster" ],
    .arr [ .str "Geometry", .str "db/d8a/classo2_1_1cpv_1_1Geometry.html", .str "db/d8a/classo2_1_1cpv_1_1Geometry" ],
    .arr [ .str "GeometryParams", .str "d2/d97/classo2_1_1cpv_1_1GeometryParams.html", .str "d2/d97/classo2_1_1cpv_1_1GeometryParams" ],
    .arr [ .str "Hit", .str "de/dd0/classo2_1_1cpv_1_1Hit.html", .str "de/dd0/classo2_1_1cpv_1_1Hit" ],
    .arr [ .str "padCharge", .str "db/d4f/structo2_1_1cpv_1_1padCharge.html", .str "db/d4f/structo2_1_1cpv_1_1padCharge" ],
    .arr [ .str "PadWord", .str "df/d44/uniono2_1_1cpv_1_1PadWord.html", .str "df/d44/uniono2_1_1cpv_1_1PadWord" ],
    .arr [ .str "PublisherConf", .str "d6/d30/structo2_1_1cpv_1_1PublisherConf.html", .str "d6/d30/structo2_1_1cpv_1_1PublisherConf" ],
    .arr [ .str "RawDecoder", .str "d5/d06/classo2_1_1cpv_1_1RawDecoder.html", .str "d5/d06/classo2_1_1cpv_1_1RawDecoder" ],
    .arr [ .str "RawDecoderError", .str "dc/d7c/classo2_1_1cpv_1_1RawDecoderError.html", .str "dc/d7c/classo2_1_1cpv_1_1RawDecoderError" ],
    .arr [ .str "RawReaderMemory", .str "d0/d66/classo2_1_1cpv_1_1RawReaderMemory.html", .str "d0/d66/classo2_1_1cpv_1_1RawReaderMemory" ],
    .arr [ .str "RawWriter", .str "d7/d3b/classo2_1_1cpv_1_1RawWriter.html", .str "d7/d3b/classo2_1_1cpv_1_1RawWriter" ],
    .arr [ .str "RCUTrailer", .str "d1/dca/classo2_1_1cpv_1_1RCUTrailer.html", .str "d1/dca/classo2_1_1cpv_1_1RCUTrailer" ],
    .arr [ .str "RowMarkerWord", .str "d7/df8/uniono2_1_1cpv_1_1RowMarkerWord.html", .str "d7/df8/uniono2_1_1cpv_1_1RowMarkerWord" ],
    .arr [ .str "SegMarkerWord", .str "d5/d4c/uniono2_1_1cpv_1_1SegMarkerWord.html", .str "d5/d4c/uniono2_1_1cpv_1_1SegMarkerWord" ],
    .arr [ .str "TriggerRecord", .str "d3/dab/classo2_1_1cpv_1_1TriggerRecord.html", .str "d3/dab/classo2_1_1cpv_1_1TriggerRecord" ]
  ]
mutual
/-- Decision procedure for equality of JavaScript values. -/
def JSVal.decEq : (a b : JSVal) → Decidable (a = b)
  | .null, .null => isTrue rfl
  | .str s, .str t =>
    if h : s = t then isTrue (by rw [h]) else isFalse (fun h1 => h (JSVal.str.inj h1))
  | .arr xs, .arr ys =>
    match JSVal.decEqList xs ys with
    | isTrue h => isTrue (by rw [h])
    | isFalse h => isFalse (fun h1 => h (JSVal.arr.inj h1))
  | .null, .str _ => isFalse (fun h => JSVal.noConfusion h)
  | .null, .arr _ => isFalse (fun h => JSVal.noConfusion h)
  | .str _, .null => isFalse (fun h => JSVal.noConfusion h)
  | .str _, .arr _ => isFalse (fun h => JSVal.noConfusion h)
  | .arr _, .null => isFalse (fun h => JSVal.noConfusion h)
  | .arr _, .str _ => isFalse (fun h => JSVal.noConfusion h)
/-- Decision procedure for equality of lists of JavaScript values. -/
def JSVal.decEqList : (a b : List JSVal) → Decidable (a = b)
  | [], [] => isTrue rfl
  | [], _ :: _ => isFalse (fun h => List.noConfusion h)
  | _ :: _, [] => isFalse (fun h => List.noConfusion h)
  | x :: xs, y :: ys =>
    match JSVal.decEq x y with
    | isFalse h => isFalse (fun h1 => h (List.cons.inj h1).1)
    | isTrue h =>
      match JSVal.decEqList xs ys with
      | isTrue h2 => isTrue (by rw [h, h2])
      | isFalse h2 => isFalse (fun h1 => h2 (List.cons.inj h1).2)
end

instance : DecidableEq JSVal := JSVal.decEq

/-- The elements of an array value; a value that is not an array has none. -/
def JSVal.elems : JSVal → List JSVal
  | .arr items => items
  | _ => []

/-- JavaScript indexing `v[i]` on an array value; `none` stands for `undefined`. -/
def JSVal.idx (v : JSVal) (i : Nat) : Option JSVal :=
  v.elems.get? i

/-- The string held by a component, when the component is present and is a string. -/
def JSVal.asStr : Option JSVal → Option String
  | some (.str s) => some s
  | _ => none

/-- The entries (rows) of a navigation table, in source order. -/
def entries (t : JSVal) : List JSVal := t.elems

/-- Component 0 of an entry, the display name, when it is a string. -/
def name (e : JSVal) : Option String := JSVal.asStr (e.idx 0)

/-- Component 1 of an entry, the page path, when it is a string. -/
def href (e : JSVal) : Option String := JSVal.asStr (e.idx 1)

/-- Component 2 of an entry, the children component (`none` when absent). -/
def children (e : JSVal) : Option JSVal := e.idx 2

/-- The display names of a table, in source order. -/
def names (t : JSVal) : List String := (entries t).filterMap name

/-! ## Text predicates used to state the properties -/

/-- Whether `p` is a prefix of `s`. -/
def startsWith (p s : String) : Bool := p.data.isPrefixOf s.data

/-- Whether `p` is a suffix of `s`. -/
def endsWith (p s : String) : Bool := p.data.isSuffixOf s.data

/-- Whether `p` occurs somewhere inside `s`. -/
def hasInfix (p s : String) : Bool := s.data.tails.any (fun t => p.data.isPrefixOf t)

/-- The file name of a path: the part after its last `/` (the whole path when it has none). -/
def fileName (p : String) : String :=
  ⟨(p.data.reverse.takeWhile (fun c => c != '/')).reverse⟩

/-- Symbol escaping used in page file names: every `_` becomes `__`, every other
character is kept. -/
def esc (s : String) : String :=
  ⟨s.data.flatMap (fun c => if c = '_' then ['_', '_'] else [c])⟩

/-- The kind prefixes of a page file name for a class, struct or union. -/
def classKinds : List String := ["class", "struct", "union"]

/-- The kind prefixes of a page file name, the namespace kind included. -/
def allKinds : List String := "namespace" :: classKinds

/-- Whether the file name of the entry's href begins with one of the prefixes `ks`
(false when the entry has no href string). -/
def hrefFileHasKind (ks : List String) (e : JSVal) : Bool :=
  match href e with
  | some h => ks.any (fun k => startsWith k (fileName h))
  | none => false

/-- Code points of a string. -/
def codes (s : String) : List Nat := s.data.map Char.toNat

/-- Strict lexicographic order on sequences of code points. -/
def lexLt : List Nat → List Nat → Bool
  | [], [] => false
  | [], _ :: _ => true
  | _ :: _, [] => false
  | a :: as, b :: bs => if a < b then true else if b < a then false else lexLt as bs

/-- ASCII lower-casing of a code point: `A`..`Z` (65..90) map to `a`..`z`. -/
def asciiLower (n : Nat) : Nat := if 65 ≤ n ∧ n ≤ 90 then n + 32 else n

/-- Case-sensitive ASCII order on names. -/
def ltCaseSensitive (a b : String) : Bool := lexLt (codes a) (codes b)

/-- Case-insensitive order on names: compare the ASCII lower-cased code points. -/
def ltCaseInsensitive (a b : String) : Bool :=
  lexLt ((codes a).map asciiLower) ((codes b).map asciiLower)

/-- The text of the array literal bound to `namespaceo2_1_1cpv`: source lines 2 to 37,
from the opening `[` to the closing `]`, with its line breaks and indentation. -/
def arrayText : String :=
"[
    [ \"reco_workflow\", \"d3/d93/namespaceo2_1_1cpv_1_1reco__workflow.html\", \"d3/d93/namespaceo2_1_1cpv_1_1reco__workflow\" ],
    [ \"AddressCharge\", \"d0/dde/uniono2_1_1cpv_1_1AddressCharge.html\", \"d0/dde/uniono2_1_1cpv_1_1AddressCharge\" ],
    [ \"BadChannelMap\", \"d3/dd0/classo2_1_1cpv_1_1BadChannelMap.html\", \"d3/dd0/classo2_1_1cpv_1_1BadChannelMap\" ],
    [ \"CalibParams\", \"d3/df4/classo2_1_1cpv_1_1CalibParams.html\", \"d3/df4/classo2_1_1cpv_1_1CalibParams\" ],
    [ \"Cluster\", \"d9/dd4/classo2_1_1cpv_1_1Cluster.html\", \"d9/dd4/classo2_1_1cpv_1_1Cluster\" ],
    [ \"Clusterer\", \"d4/d03/classo2_1_1cpv_1_1Clusterer.html\", \"d4/d03/classo2_1_1cpv_1_1Clusterer\" ],
    [ \"CPVBlockHeader\", \"d0/ddd/structo2_1_1cpv_1_1CPVBlockHeader.html\", \"d0/ddd/structo2_1_1cpv_1_1CPVBlockHeader\" ],
    [ \"CPVSimParams\", \"df/ddb/structo2_1_1cpv_1_1CPVSimParams.html\", \"df/ddb/structo2_1_1cpv_1_1CPVSimParams\" ],
    [ \"CTF\", \"d2/d61/structo2_1_1cpv_1_1CTF.html\", \"d2/d61/structo2_1_1cpv_1_1CTF\" ],
    [ \"CTFCoder\", \"da/d3c/classo2_1_1cpv_1_1CTFCoder.html\", \"da/d3c/classo2_1_1cpv_1_1CTFCoder\" ],
    [ \"CTFHeader\", \"d0/d60/structo2_1_1cpv_1_1CTFHeader.html\", \"d0/d60/structo2_1_1cpv_1_1CTFHeader\" ],
    [ \"CTFHelper\", \"db/d85/classo2_1_1cpv_1_1CTFHelper.html\", \"db/d85/classo2_1_1cpv_1_1CTFHelper\" ],
    [ \"Detector\", \"d4/d0b/classo2_1_1cpv_1_1Detector.html\", \"d4/d0b/classo2_1_1cpv_1_1Detector\" ],
    [ \"Digit\", \"d2/dab/classo2_1_1cpv_1_1Digit.html\", \"d2/dab/classo2_1_1cpv_1_1Digit\" ],
    [ \"Digitizer\", \"d2/d76/classo2_1_1cpv_1_1Digitizer.html\", \"d2/d76/classo2_1_1cpv_1_1Digitizer\" ],
    [ \"DigitizerSpec\", \"d2/d9d/classo2_1_1cpv_1_1DigitizerSpec.html\", \"d2/d9d/classo2_1_1cpv_1_1DigitizerSpec\" ],
    [ \"EntropyDecoderSpec\", \"d0/d1e/classo2_1_1cpv_1_1EntropyDecoderSpec.html\", \"d0/d1e/classo2_1_1cpv_1_1EntropyDecoderSpec\" ],
    [ \"EntropyEncoderSpec\", \"d0/de1/classo2_1_1cpv_1_1EntropyEncoderSpec.html\", \"d0/de1/classo2_1_1cpv_1_1EntropyEncoderSpec\" ],
    [ \"EoEWord\", \"d3/d0d/uniono2_1_1cpv_1_1EoEWord.html\", \"d3/d0d/uniono2_1_1cpv_1_1EoEWord\" ],
    [ \"FullCluster\", \"df/db5/classo2_1_1cpv_1_1FullCluster.html\", \"df/db5/classo2_1_1cpv_1_1FullCluster\" ],
    [ \"Geometry\", \"db/d8a/classo2_1_1cpv_1_1Geometry.html\", \"db/d8a/classo2_1_1cpv_1_1Geometry\" ],
    [ \"GeometryParams\", \"d2/d97/classo2_1_1cpv_1_1GeometryParams.html\", \"d2/d97/classo2_1_1cpv_1_1GeometryParams\" ],
    [ \"Hit\", \"de/dd0/classo2_1_1cpv_1_1Hit.html\", \"de/dd0/classo2_1_1cpv_1_1Hit\" ],
    [ \"padCharge\", \"db/d4f/structo2_1_1cpv_1_1padCharge.html\", \"db/d4f/structo2_1_1cpv_1_1padCharge\" ],
    [ \"PadWord\", \"df/d44/uniono2_1_1cpv_1_1PadWord.html\", \"df/d44/uniono2_1_1cpv_1_1PadWord\" ],
    [ \"PublisherConf\", \"d6/d30/structo2_1_1cpv_1_1PublisherConf.html\", \"d6/d30/structo2_1_1cpv_1_1PublisherConf\" ],
    [ \"RawDecoder\", \"d5/d06/classo2_1_1cpv_1_1RawDecoder.html\", \"d5/d06/classo2_1_1cpv_1_1RawDecoder\" ],
    [ \"RawDecoderError\", \"dc/d7c/classo2_1_1cpv_1_1RawDecoderError.html\", \"dc/d7c/classo2_1_1cpv_1_1RawDecoderError\" ],
    [ \"RawReaderMemory\", \"d0/d66/classo2_1_1cpv_1_1RawReaderMemory.html\", \"d0/d66/classo2_1_1cpv_1_1RawReaderMemory\" ],
    [ \"RawWriter\", \"d7/d3b/classo2_1_1cpv_1_1RawWriter.html\", \"d7/d3b/classo2_1_1cpv_1_1RawWriter\" ],
    [ \"RCUTrailer\", \"d1/dca/classo2_1_1cpv_1_1RCUTrailer.html\", \"d1/dca/classo2_1_1cpv_1_1RCUTrailer\" ],
    [ \"RowMarkerWord\", \"d7/df8/uniono2_1_1cpv_1_1RowMarkerWord.html\", \"d7/df8/uniono2_1_1cpv_1_1RowMarkerWord\" ],
    [ \"SegMarkerWord\", \"d5/d4c/uniono2_1_1cpv_1_1SegMarkerWord.html\", \"d5/d4c/uniono2_1_1cpv_1_1SegMarkerWord\" ],
    [ \"TriggerRecord\", \"d3/dab/classo2_1_1cpv_1_1TriggerRecord.html\", \"d3/dab/classo2_1_1cpv_1_1TriggerRecord\" ]
]"

/-! ## Reading and writing the array literal -/

/-- The double quote character. -/
def dquote : Char := Char.ofNat 34

/-- The backslash character. -/
def bslash : Char := Char.ofNat 92

/-- The line feed character. -/
def newline : Char := Char.ofNat 10

/-- Modelled from the spec: the white space a reader of the literal skips (the
reader itself is not part of the source file). -/
def isWs (c : Char) : Bool :=
  c == ' ' || c == newline || c == Char.ofNat 9 || c == Char.ofNat 13

/-- Modelled from the spec: drop leading white space. -/
def skipWs : List Char → List Char
  | [] => []
  | c :: cs => if isWs c then skipWs cs else c :: cs

/-- Modelled from the spec: read the body of a string literal after its opening
quote, up to the closing quote; a backslash may only escape a quote or a
backslash, and a line break inside the literal is refused. `acc` holds the
characters read so far, last first. -/
def readString : List Char → List Char → Option (String × List Char)
  | _, [] => none
  | acc, c :: cs =>
    if c = dquote then some (⟨acc.reverse⟩, cs)
    else if c = newline then none
    else if c = bslash then
      match cs with
      | [] => none
      | d :: ds => if d = dquote ∨ d = bslash then readString (d :: acc) ds else none
    else readString (c :: acc) cs

mutual
/-- Modelled from the spec: read one value (`null`, a string literal or an array
literal) and return it with the unread text. -/
def parseValue : Nat → List Char → Option (JSVal × List Char)
  | 0, _ => none
  | fuel + 1, cs =>
    match skipWs cs with
    | [] => none
    | c :: rest =>
      if c = dquote then
        (readString [] rest).map (fun r => (JSVal.str r.1, r.2))
      else if c = '[' then
        match skipWs rest with
        | [] => none
        | d :: rest2 =>
          if d = ']' then some (JSVal.arr [], rest2)
          else (parseItems fuel (d :: rest2)).map (fun r => (JSVal.arr r.1, r.2))
      else if "null".data.isPrefixOf (c :: rest) then some (JSVal.null, rest.drop 3)
      else none
/-- Modelled from the spec: read the comma-separated values of an array literal
up to and including its closing bracket. -/
def parseItems : Nat → List Char → Option (List JSVal × List Char)
  | 0, _ => none
  | fuel + 1, cs =>
    match parseValue fuel cs with
    | none => none
    | some (v, rest) =>
      match skipWs rest with
      | [] => none
      | d :: rest2 =>
        if d = ',' then (parseItems fuel rest2).map (fun r => (v :: r.1, r.2))
        else if d = ']' then some ([v], rest2)
        else none
end

/-- Modelled from the spec: parse a whole array-literal text into a value; only
white space may follow the value. The fuel bounds the depth of the reader calls;
the length of the text plus one is given. -/
def parse (text : String) : Option JSVal :=
  match parseValue (text.length + 1) text.data with
  | some (v, rest) => if (skipWs rest).isEmpty then some v else none
  | none => none

/-- Modelled from the spec: a string literal, quotes and backslashes escaped. -/
def quote (s : String) : List Char :=
  dquote :: (s.data.flatMap (fun c => if c = dquote ∨ c = bslash then [bslash, c] else [c])) ++ [dquote]

mutual
/-- Modelled from the spec: a value written on one line in the shape of the source
rows, `[ a, b, c ]`. -/
def render : JSVal → List Char
  | .null => "null".data
  | .str s => quote s
  | .arr items => '[' :: ' ' :: (renderItems items ++ [' ', ']'])
/-- Modelled from the spec: the items of a row separated by a comma and a blank. -/
def renderItems : List JSVal → List Char
  | [] => []
  | v :: vs =>
    match vs with
    | [] => render v
    | _ :: _ => render v ++ (',' :: ' ' :: renderItems vs)
end

/-- Modelled from the spec: the rows of a table, each on its own line indented by
four blanks, separated by a comma and a line break. -/
def renderRows : List JSVal → List Char
  | [] => []
  | r :: rs =>
    match rs with
    | [] => "    ".data ++ render r
    | _ :: _ => "    ".data ++ render r ++ (',' :: newline :: renderRows rs)

/-- Modelled from the spec: re-serialise a table in the literal array shape of the
source file: `[`, one row per line, `]`. -/
def serialize (t : JSVal) : String :=
  ⟨'[' :: newline :: (renderRows (entries t) ++ [newline, ']'])⟩


/-! ## Checks on single entries, and what they establish -/

/-- Whether an entry is an array of exactly three non-empty strings. -/
def isRow : JSVal → Bool
  | .arr [.str n, .str h, .str c] => n != "" && h != "" && c != ""
  | _ => false

/-- Whether the entry's href is its children reference followed by `.html`. -/
def hrefIsChildrenHtml (e : JSVal) : Bool :=
  match href e, children e with
  | some h, some (.str c) => h == c ++ ".html"
  | _, _ => false

/-- Whether the file name of the entry's href is a kind prefix, the namespace
prefix `o2_1_1cpv_1_1`, the escaped name of the entry and `.html`. -/
def hrefEncodesName (e : JSVal) : Bool :=
  match name e, href e with
  | some n, some h => allKinds.any (fun k => fileName h == k ++ "o2_1_1cpv_1_1" ++ esc n ++ ".html")
  | _, _ => false

/-- The entry of the table named `Clusterer` (source line 8). -/
def clustererEntry : JSVal :=
  .arr [ .str "Clusterer", .str "d4/d03/classo2_1_1cpv_1_1Clusterer.html", .str "d4/d03/classo2_1_1cpv_1_1Clusterer" ]

/-- The entry of the table named `reco_workflow` (source line 3). -/
def recoWorkflowEntry : JSVal :=
  .arr [ .str "reco_workflow", .str "d3/d93/namespaceo2_1_1cpv_1_1reco__workflow.html", .str "d3/d93/namespaceo2_1_1cpv_1_1reco__workflow" ]

theorem exists_of_any {α : Type} {p : α → Bool} {o : Option α} (h : o.any p = true) :
    ∃ a, o = some a ∧ p a = true := by
  cases o with
  | none => simp [Option.any] at h
  | some a => exact ⟨a, rfl, by simpa [Option.any] using h⟩

theorem isRow_spec {e : JSVal} (h : isRow e = true) :
    ∃ n p c : String, e = .arr [.str n, .str p, .str c] ∧ n ≠ "" ∧ p ≠ "" ∧ c ≠ "" := by
  unfold isRow at h
  split at h
  · rename_i n p c
    simp only [Bool.and_eq_true, bne_iff_ne, ne_eq] at h
    exact ⟨n, p, c, rfl, h.1.1, h.1.2, h.2⟩
  · exact absurd h (by simp)

theorem all_isRow : ∀ e ∈ entries namespaceo2_1_1cpv, isRow e = true := by
  decide!

theorem table_length : (entries namespaceo2_1_1cpv).length = 34 := by
  decide

/-! ## The properties of the table -/

/-- C1: href values are unique across the whole table: entries at two different
positions have different hrefs. -/
theorem href_unique (i j : Fin (entries namespaceo2_1_1cpv).length) (h : i ≠ j) :
    href ((entries namespaceo2_1_1cpv).get i) ≠ href ((entries namespaceo2_1_1cpv).get j) := by
  revert i j
  decide!

/-- Witness of C1 at positions 4 (`Cluster`) and 5 (`Clusterer`). -/
theorem href_unique_witness :
    href ((entries namespaceo2_1_1cpv).get ⟨4, by decide⟩) = some "d9/dd4/classo2_1_1cpv_1_1Cluster.html" ∧
    href ((entries namespaceo2_1_1cpv).get ⟨5, by decide⟩) = some "d4/d03/classo2_1_1cpv_1_1Clusterer.html" ∧
    href ((entries namespaceo2_1_1cpv).get ⟨4, by decide⟩) ≠
      href ((entries namespaceo2_1_1cpv).get ⟨5, by decide⟩) :=
  ⟨by decide, by decide, href_unique ⟨4, by decide⟩ ⟨5, by decide⟩ (by decide)⟩

/-- C2: lookup by name is exact: for every entry of the table, the first entry
whose name equals that entry's name is the entry itself, and its children
component is present and not null. Looking up `Clusterer` gives the entry with href
`d4/d03/classo2_1_1cpv_1_1Clusterer.html` and children reference
`d4/d03/classo2_1_1cpv_1_1Clusterer`; the entry `Cluster`, whose name is a prefix,
does not shadow it. -/
theorem lookup_by_name_exact :
    (∀ e ∈ entries namespaceo2_1_1cpv, ∃ n c,
      name e = some n ∧
      (entries namespaceo2_1_1cpv).find? (fun x => name x == some n) = some e ∧
      children e = some c ∧ c ≠ JSVal.null) ∧
    (entries namespaceo2_1_1cpv).find? (fun x => name x == some "Clusterer") =
      some (.arr [ .str "Clusterer", .str "d4/d03/classo2_1_1cpv_1_1Clusterer.html",
        .str "d4/d03/classo2_1_1cpv_1_1Clusterer" ]) ∧
    ((entries namespaceo2_1_1cpv).find? (fun x => name x == some "Cluster")).bind href =
      some "d9/dd4/classo2_1_1cpv_1_1Cluster.html" := by
  refine ⟨?_, by decide!, by decide!⟩
  intro e he
  have key : ∀ e ∈ entries namespaceo2_1_1cpv,
      (name e).any (fun n => decide
        ((entries namespaceo2_1_1cpv).find? (fun x => name x == some n) = some e)) = true := by
    decide!
  obtain ⟨n, hn, hf⟩ := exists_of_any (key e he)
  obtain ⟨n1, p, c, rfl, -, -, -⟩ := isRow_spec (all_isRow e he)
  exact ⟨n, .str c, hn, of_decide_eq_true hf, rfl, fun h => JSVal.noConfusion h⟩

/-- Witness of C2 at the entry `Clusterer`. -/
theorem lookup_by_name_exact_witness :
    clustererEntry ∈ entries namespaceo2_1_1cpv ∧
    ∃ n c, name clustererEntry = some n ∧
      (entries namespaceo2_1_1cpv).find? (fun x => name x == some n) = some clustererEntry ∧
      children clustererEntry = some c ∧ c ≠ JSVal.null :=
  ⟨by decide, lookup_by_name_exact.1 clustererEntry (by decide)⟩

/-- C3: the table is a flat array of 3-element entries: the table is an array, and
every entry is an array of exactly three strings (name, href, children reference),
the name and the href non-empty; the third component is a string, so neither a
nested array nor null. -/
theorem entries_are_string_triples :
    (∃ rows, namespaceo2_1_1cpv = JSVal.arr rows) ∧
    ∀ e ∈ entries namespaceo2_1_1cpv, ∃ n h c : String,
      e = JSVal.arr [JSVal.str n, JSVal.str h, JSVal.str c] ∧ n ≠ "" ∧ h ≠ "" := by
  refine ⟨⟨_, rfl⟩, ?_⟩
  intro e he
  obtain ⟨n, p, c, h1, h2, h3, -⟩ := isRow_spec (all_isRow e he)
  exact ⟨n, p, c, h1, h2, h3⟩

/-- Witness of C3 at the entry `Clusterer`. -/
theorem entries_are_string_triples_witness :
    clustererEntry ∈ entries namespaceo2_1_1cpv ∧
    ∃ n h c : String,
      clustererEntry = JSVal.arr [JSVal.str n, JSVal.str h, JSVal.str c] ∧ n ≠ "" ∧ h ≠ "" :=
  ⟨by decide, entries_are_string_triples.2 clustererEntry (by decide)⟩

/-- C4: for every entry whose children component is present and not null, the
children component is non-empty: not the empty array when it is a nested array,
not the empty string when it is a reference string. -/
theorem children_non_empty :
    ∀ e ∈ entries namespaceo2_1_1cpv, ∀ c, children e = some c → c ≠ JSVal.null →
      (∀ items, c = JSVal.arr items → items ≠ []) ∧ (∀ s, c = JSVal.str s → s ≠ "") := by
  intro e he c hc _
  obtain ⟨n, p, c1, rfl, -, -, h3⟩ := isRow_spec (all_isRow e he)
  have hc1 : c = JSVal.str c1 := (Option.some.inj hc).symm
  subst hc1
  exact ⟨fun items h => JSVal.noConfusion h, fun s h => by rw [← JSVal.str.inj h]; exact h3⟩

/-- Witness of C4 at the entry `Clusterer` and its children reference. -/
theorem children_non_empty_witness :
    clustererEntry ∈ entries namespaceo2_1_1cpv ∧
    children clustererEntry = some (JSVal.str "d4/d03/classo2_1_1cpv_1_1Clusterer") ∧
    JSVal.str "d4/d03/classo2_1_1cpv_1_1Clusterer" ≠ JSVal.null ∧
    "d4/d03/classo2_1_1cpv_1_1Clusterer" ≠ "" :=
  ⟨by decide, by decide, by decide,
    (children_non_empty clustererEntry (by decide) _ (by decide) (by decide)).2 _ rfl⟩

/-- C5, as stated, fails: the entry `reco_workflow` at position 0 is in the table,
the file name of its href is `namespaceo2_1_1cpv_1_1reco__workflow.html`, and that
file name begins with none of `class`, `struct`, `union`; so not every entry has a
class, struct or union page. -/
theorem href_kind_class_struct_union_fails :
    (entries namespaceo2_1_1cpv).get? 0 = some recoWorkflowEntry ∧
    (href recoWorkflowEntry).map fileName = some "namespaceo2_1_1cpv_1_1reco__workflow.html" ∧
    hrefFileHasKind classKinds recoWorkflowEntry = false ∧
    ¬ ∀ e ∈ entries namespaceo2_1_1cpv, hrefFileHasKind classKinds e = true := by
  decide!

/-- C5, amended: for every entry, the file name of its href begins with `class`,
`struct` or `union`, except the entry named `reco_workflow`, whose file name begins
with `namespace`. -/
theorem href_kind_except_namespace_entry :
    ∀ e ∈ entries namespaceo2_1_1cpv,
      hrefFileHasKind classKinds e = true ∨
      (name e = some "reco_workflow" ∧ hrefFileHasKind ["namespace"] e = true) := by
  decide!

/-- Witness of the amended C5 at the entry `Clusterer`. -/
theorem href_kind_except_namespace_entry_witness :
    clustererEntry ∈ entries namespaceo2_1_1cpv ∧
    (hrefFileHasKind classKinds clustererEntry = true ∨
      (name clustererEntry = some "reco_workflow" ∧
        hrefFileHasKind ["namespace"] clustererEntry = true)) :=
  ⟨by decide, href_kind_except_namespace_entry clustererEntry (by decide)⟩

/-- C6: every href is a relative path to an HTML page: it ends with `.html`, does
not begin with `/`, and contains no `://`. -/
theorem href_relative_html :
    ∀ e ∈ entries namespaceo2_1_1cpv, ∃ h, href e = some h ∧
      endsWith ".html" h = true ∧ startsWith "/" h = false ∧ hasInfix "://" h = false := by
  intro e he
  have key : ∀ e ∈ entries namespaceo2_1_1cpv,
      (href e).any (fun h => endsWith ".html" h && !startsWith "/" h && !hasInfix "://" h)
        = true := by
    decide!
  obtain ⟨h, hh, hp⟩ := exists_of_any (key e he)
  simp only [Bool.and_eq_true, Bool.not_eq_true'] at hp
  exact ⟨h, hh, hp.1.1, hp.1.2, hp.2⟩

/-- Witness of C6 at the entry `Clusterer`. -/
theorem href_relative_html_witness :
    clustererEntry ∈ entries namespaceo2_1_1cpv ∧
    ∃ h, href clustererEntry = some h ∧
      endsWith ".html" h = true ∧ startsWith "/" h = false ∧ hasInfix "://" h = false :=
  ⟨by decide, href_relative_html clustererEntry (by decide)⟩

/-- C7: round trip on the table text: parsing the array literal text of the source
gives the table, and re-serialising the parsed table in the same literal array
shape gives back the original text, character for character; every character of the
text is ASCII, hence one byte, so the output is byte-identical. -/
theorem parse_serialize_round_trip :
    parse arrayText = some namespaceo2_1_1cpv ∧
    (parse arrayText).map serialize = some arrayText ∧
    arrayText.data.all (fun c => decide (c.toNat < 128)) = true := by
  decide!

/-- C8: every name matches the symbol encoded in its own page path: the file name
of the href is a kind prefix (`namespace`, `class`, `struct` or `union`), then
`o2_1_1cpv_1_1`, then the name with every `_` doubled, then `.html`; for instance
`reco_workflow` is encoded as `reco__workflow`. -/
theorem name_matches_page_path :
    (∀ e ∈ entries namespaceo2_1_1cpv, ∃ n h k,
      name e = some n ∧ href e = some h ∧ k ∈ allKinds ∧
      fileName h = k ++ "o2_1_1cpv_1_1" ++ esc n ++ ".html") ∧
    esc "reco_workflow" = "reco__workflow" := by
  refine ⟨?_, by decide⟩
  intro e he
  have key : ∀ e ∈ entries namespaceo2_1_1cpv, hrefEncodesName e = true := by
    decide!
  have h1 := key e he
  unfold hrefEncodesName at h1
  split at h1
  · rename_i n h hn hh
    obtain ⟨k, hk, hf⟩ := List.any_eq_true.mp h1
    exact ⟨n, h, k, hn, hh, hk, by simpa using hf⟩
  · exact absurd h1 (by simp)

/-- Witness of C8 at the entry `reco_workflow`. -/
theorem name_matches_page_path_witness :
    recoWorkflowEntry ∈ entries namespaceo2_1_1cpv ∧
    ∃ n h k, name recoWorkflowEntry = some n ∧ href recoWorkflowEntry = some h ∧
      k ∈ allKinds ∧ fileName h = k ++ "o2_1_1cpv_1_1" ++ esc n ++ ".html" :=
  ⟨by decide, name_matches_page_path.1 recoWorkflowEntry (by decide)⟩

/-- C9: for every entry, the href is the children reference followed by `.html`;
and the children references at two different positions are different. -/
theorem href_is_children_html :
    (∀ e ∈ entries namespaceo2_1_1cpv, ∃ h c,
      href e = some h ∧ children e = some (JSVal.str c) ∧ h = c ++ ".html") ∧
    ∀ i j : Fin (entries namespaceo2_1_1cpv).length, i ≠ j →
      children ((entries namespaceo2_1_1cpv).get i) ≠
        children ((entries namespaceo2_1_1cpv).get j) := by
  refine ⟨?_, by decide!⟩
  intro e he
  have key : ∀ e ∈ entries namespaceo2_1_1cpv, hrefIsChildrenHtml e = true := by
    decide!
  have h1 := key e he
  unfold hrefIsChildrenHtml at h1
  split at h1
  · rename_i h c hh hc
    exact ⟨h, c, hh, hc, by simpa using h1⟩
  · exact absurd h1 (by simp)

/-- Witness of C9 at the entry `Clusterer` and at positions 4 and 5. -/
theorem href_is_children_html_witness :
    (clustererEntry ∈ entries namespaceo2_1_1cpv ∧
      ∃ h c, href clustererEntry = some h ∧ children clustererEntry = some (JSVal.str c) ∧
        h = c ++ ".html") ∧
    children ((entries namespaceo2_1_1cpv).get ⟨4, by decide⟩) ≠
      children ((entries namespaceo2_1_1cpv).get ⟨5, by decide⟩) :=
  ⟨⟨by decide, href_is_children_html.1 clustererEntry (by decide)⟩,
    href_is_children_html.2 ⟨4, by decide⟩ ⟨5, by decide⟩ (by decide)⟩

/-- C10: the order of the table: the only namespace entry, `reco_workflow`, comes
first (position 0); the names at positions 1 to 33 are strictly increasing in
case-insensitive order; and they are not increasing in case-sensitive ASCII order:
`Clusterer` (position 5) precedes `CPVBlockHeader` (position 6), and `Hit`,
`padCharge`, `PadWord` stand at positions 22, 23, 24, while in ASCII order
`CPVBlockHeader` is below `Clusterer` and `PadWord` is below `padCharge`. -/
theorem table_order :
    (names namespaceo2_1_1cpv).length = 34 ∧
    (names namespaceo2_1_1cpv).head? = some "reco_workflow" ∧
    (entries namespaceo2_1_1cpv).map (hrefFileHasKind ["namespace"]) =
      true :: List.replicate 33 false ∧
    List.Pairwise (fun a b => ltCaseInsensitive a b = true)
      ((names namespaceo2_1_1cpv).drop 1) ∧
    ¬ List.Pairwise (fun a b => ltCaseSensitive a b = true)
      ((names namespaceo2_1_1cpv).drop 1) ∧
    (names namespaceo2_1_1cpv).get? 5 = some "Clusterer" ∧
    (names namespaceo2_1_1cpv).get? 6 = some "CPVBlockHeader" ∧
    ltCaseSensitive "Clusterer" "CPVBlockHeader" = false ∧
    ltCaseSensitive "CPVBlockHeader" "Clusterer" = true ∧
    (names namespaceo2_1_1cpv).get? 22 = some "Hit" ∧
    (names namespaceo2_1_1cpv).get? 23 = some "padCharge" ∧
    (names namespaceo2_1_1cpv).get? 24 = some "PadWord" ∧
    ltCaseSensitive "Hit" "padCharge" = true ∧
    ltCaseSensitive "padCharge" "PadWord" = false ∧
    ltCaseSensitive "PadWord" "padCharge" = true := by
  decide!

end NavTable
